import Mathlib

/- Verification development for the GeometryExplorer component
   (src/src/components/GeometryExplorer/GeometryExplorer.tsx).
   The component's state initializers, the camera-aspect computations of the
   scene-init effect and of handleResize, the rotation-restore step, the
   animate tick, the wireframe effect, the effect cleanup and the
   mount / shape-change / unmount dispose discipline are embedded as
   executable Lean definitions. Machine doubles are idealized as exact
   rationals, except where the IEEE special values NaN and Infinity are the
   point of a claim, in which case they are modelled explicitly. -/

namespace GeometryExplorer

/-- The eight keys of the GEOMETRIES record, in declaration order (the
enumeration order of Object.keys for these string keys). -/
def shapeKeys : List String :=
  ["box", "sphere", "plane", "cone", "cylinder", "torus", "torusKnot", "ring"]

/-- The geometryKey useState initializer: localStorage.getItem returns a
string or null (modelled as Option String); a stored value that is truthy
(the empty string is the only falsy string) and is a key of GEOMETRIES is
used as is, anything else falls back to the default key "box". -/
def initGeometryKey (stored : Option String) : String :=
  match stored with
  | none => "box"
  | some s => if !s.isEmpty && shapeKeys.contains s then s else "box"

/-- The wireframe useState initializer: true exactly when the stored string
compares equal to "true" (null compares unequal). -/
def initWireframe (stored : Option String) : Bool :=
  stored == some "true"

/-- The autoRotate useState initializer: true unless the stored string is
exactly "false", so the flag defaults to enabled when the key is absent. -/
def initAutoRotate (stored : Option String) : Bool :=
  stored != some "false"

/-- A JS number as it arises in the aspect computations: a finite rational,
positive infinity, or NaN. Widths and heights from getBoundingClientRect are
nonnegative, so negative infinity cannot arise here. -/
inductive FloatVal where
  | fin (q : ℚ)
  | inf
  | nan
deriving DecidableEq

/-- Whether a FloatVal is a finite number (Number.isFinite). -/
def FloatVal.isFinite : FloatVal → Bool
  | .fin _ => true
  | _ => false

/-- IEEE division for nonnegative operands: a finite quotient when the
divisor is nonzero, NaN for 0 / 0, positive infinity for w / 0 with w
nonzero. -/
def fdiv (w h : ℚ) : FloatVal :=
  if h = 0 then (if w = 0 then .nan else .inf) else .fin (w / h)

/-- Camera aspect at scene construction: width / height straight from
getBoundingClientRect, with no fallback applied. -/
def constructAspect (w h : ℚ) : FloatVal := fdiv w h

/-- The JS or-fallback on a nonnegative number, as in rect.width or 800: a
zero value is falsy and is replaced by the default, any other value is
kept. -/
def orDefault (v d : ℚ) : ℚ := if v = 0 then d else v

/-- Camera aspect computed by handleResize: width and height are first
replaced by the 800 x 600 fallback when zero, then divided. -/
def resizeAspect (w h : ℚ) : FloatVal := fdiv (orDefault w 800) (orDefault h 600)

/-- A value of JS number type as it can sit in a parsed rotation field:
finite, an infinity (reachable from JSON.parse through overflowing literals
such as 1e999), or NaN (typeof NaN is still the string number). -/
inductive JsNum where
  | fin (q : ℚ)
  | inf
  | neginf
  | nanv
deriving DecidableEq

/-- A field of a parsed JSON object: a value of number type, or anything
else (string, boolean, object, null, missing / undefined). -/
inductive JsVal where
  | num (n : JsNum)
  | nonNum
deriving DecidableEq

/-- A mesh Euler rotation: three JS numbers, as mesh.rotation stores them. -/
structure Rot where
  x : JsNum
  y : JsNum
  z : JsNum
deriving DecidableEq

/-- The outcome of JSON.parse on the stored meshRotation string: a throw
(swallowed by the empty catch), a falsy result (null, 0, the empty string,
false), or a truthy value whose x, y and z fields are as given. -/
inductive ParseOutcome where
  | error
  | falsy
  | obj (x y z : JsVal)
deriving DecidableEq

/-- The rotation-restore step of the scene-init effect: when a stored string
exists, parse it; if the parse succeeds with a truthy value whose x, y and z
fields are all of number type (the three typeof checks), call
mesh.rotation.set with those three numbers; in every other case leave the
mesh at its prior rotation d. The function is total: the try / catch
swallows parse errors, so nothing escapes the adapter boundary. -/
def restoreRotationStep (stored : Option ParseOutcome) (d : Rot) : Rot :=
  match stored with
  | none => d
  | some .error => d
  | some .falsy => d
  | some (.obj x y z) =>
    match x, y, z with
    | .num a, .num b, .num c => ⟨a, b, c⟩
    | _, _, _ => d

/-- Mesh rotation as exact rationals, idealizing IEEE doubles; the spec
states its tick property only up to floating tolerance. -/
structure QRot where
  x : ℚ
  y : ℚ
  z : ℚ
deriving DecidableEq

/-- The state the animate callback touches: the active mesh rotation, the
meshRotation entry of localStorage, and a count of renderer.render calls. -/
structure LoopState where
  rotation : QRot
  storedRot : Option QRot
  renders : ℕ
deriving DecidableEq

/-- One animate tick: when the autoRotate ref is set, increment rotation.x
by 0.01 and rotation.y by 0.015 and persist the resulting rotation to
localStorage; in every case render the scene once. -/
def tick (autoRotate : Bool) (s : LoopState) : LoopState :=
  let s1 :=
    if autoRotate then
      let r : QRot := ⟨s.rotation.x + 1/100, s.rotation.y + 3/200, s.rotation.z⟩
      { s with rotation := r, storedRot := some r }
    else s
  { s1 with renders := s1.renders + 1 }

/-- N successive animate ticks under a fixed autoRotate flag. -/
def ticks (autoRotate : Bool) : ℕ → LoopState → LoopState
  | 0, s => s
  | n + 1, s => ticks autoRotate n (tick autoRotate s)

/-- Persisting a rotation and reading it back: JSON.stringify of an object
of three finite numbers followed by JSON.parse restores the same three
numbers exactly (finite doubles round-trip through JSON text), yielding a
truthy object whose three fields are of number type. -/
def encodeRot (r : QRot) : ParseOutcome :=
  .obj (.num (.fin r.x)) (.num (.fin r.y)) (.num (.fin r.z))

/-- The MeshPhongMaterial fields the component touches. -/
structure Material where
  color : String
  wireframe : Bool
  needsUpdate : Bool
deriving DecidableEq

/-- The scene-level state owned by one run of the scene-init effect, plus a
counter of how many times that effect has constructed a scene. -/
structure SceneState where
  constructions : ℕ
  meshId : ℕ
  geometryKey : String
  rotation : QRot
  material : Material
  hasAmbientLight : Bool
  hasDirectionalLight : Bool
  cameraAspect : FloatVal
  rendererId : ℕ
deriving DecidableEq

/-- The wireframe effect (dependency list [wireframe]): it sets the active
mesh material's wireframe flag and needsUpdate in place. It is a separate
effect from the scene-init effect (dependency list [geometryKey]), so it
constructs nothing and releases nothing. -/
def applyWireframe (w : Bool) (s : SceneState) : SceneState :=
  { s with material := { s.material with wireframe := w, needsUpdate := true } }

/-- The operations the scene-init effect cleanup performs, in order. -/
inductive TeardownEvent where
  | removeResizeListener
  | cancelFrame
  | disposeRenderer
  | disposeGeometry
  | disposeMaterial
  | clearScene
deriving DecidableEq

/-- The cleanup returned by the scene-init effect, in source order: remove
the resize listener; cancel the scheduled animation frame when one is
registered (animRef.current is set by every animate call, so the guard is
true whenever the loop ran); then dispose the renderer, the geometry and the
material and clear the scene. -/
def teardownEvents (animRegistered : Bool) : List TeardownEvent :=
  [.removeResizeListener]
    ++ (if animRegistered then [.cancelFrame] else [])
    ++ [.disposeRenderer, .disposeGeometry, .disposeMaterial, .clearScene]

/-- Events that release a graphics resource or clear the scene container. -/
def isRelease : TeardownEvent → Bool
  | .disposeRenderer => true
  | .disposeGeometry => true
  | .disposeMaterial => true
  | .clearScene => true
  | _ => false

/-- The kinds of graphics resource one construction of the scene-init effect
creates and owns. -/
inductive ResKind where
  | renderer
  | geometry
  | material
deriving DecidableEq

/-- The state threaded through a mount / shape-change / unmount sequence:
which construction's renderer rendererRef.current still points at (the
cleanup does not null it out), and the dispose events executed so far, each
tagged with the construction that created the disposed resource. -/
structure LifeState where
  rendererRef : Option ℕ
  events : List (ℕ × ResKind)
deriving DecidableEq

/-- The scene-init effect body, construction number i: if rendererRef.current
is set (it still holds the previous construction's renderer), dispose that
renderer again before creating the new one; then point rendererRef at the
new renderer. Geometry and material are freshly created, disposing
nothing. -/
def construct (i : ℕ) (s : LifeState) : LifeState :=
  { rendererRef := some i
    events :=
      match s.rendererRef with
      | some j => (j, .renderer) :: s.events
      | none => s.events }

/-- The effect cleanup for construction i: dispose its renderer, geometry
and material; rendererRef.current is left pointing at the now-disposed
renderer. -/
def cleanup (i : ℕ) (s : LifeState) : LifeState :=
  { s with
    events := (i, .renderer) :: (i, .geometry) :: (i, .material) :: s.events }

/-- Mount followed by n shape changes: construction 0, then for each change
React runs the previous construction's cleanup and then the next
construction. -/
def lifeRun : ℕ → LifeState
  | 0 => construct 0 ⟨none, []⟩
  | n + 1 => construct (n + 1) (cleanup n (lifeRun n))

/-- A full session: mount, n shape changes, and a final unmount, which runs
the last construction's cleanup. -/
def finalState (n : ℕ) : LifeState := cleanup n (lifeRun n)

/-- How many events in the list dispose construction i's resource of
kind k. -/
def countEvents (i : ℕ) (k : ResKind) : List (ℕ × ResKind) → ℕ
  | [] => 0
  | e :: es => (if e = (i, k) then 1 else 0) + countEvents i k es

/-- How many times the dispose of construction i's resource of kind k has
run in state s. -/
def disposeCount (s : LifeState) (i : ℕ) (k : ResKind) : ℕ :=
  countEvents i k s.events

/-- Claim C4: the selected shape id the viewer uses is always a key of the
Shape Catalog; a stored value among the 8 known identifiers is used as is,
and any other stored value (an unknown id such as doesNotExist, or an absent
key) selects the default shape "box". -/
theorem claim_C4 (stored : Option String) :
    initGeometryKey stored ∈ shapeKeys
      ∧ (∀ s, stored = some s → s ∈ shapeKeys → initGeometryKey stored = s)
      ∧ initGeometryKey (some "doesNotExist") = "box"
      ∧ initGeometryKey none = "box" := by
  refine ⟨?_, ?_, by decide, rfl⟩
  · cases stored with
    | none => simp [initGeometryKey, shapeKeys]
    | some s =>
      show (if (!s.isEmpty && shapeKeys.contains s) = true then s else "box")
        ∈ shapeKeys
      by_cases h : (!s.isEmpty && shapeKeys.contains s) = true
      · rw [if_pos h]
        have h2 := (Bool.and_eq_true _ _).mp h
        simpa using h2.2
      · rw [if_neg h]
        simp [shapeKeys]
  · intro s hs hmem
    subst hs
    simp only [shapeKeys, List.mem_cons, List.not_mem_nil, or_false] at hmem
    rcases hmem with h | h | h | h | h | h | h | h <;> subst h <;> decide

/-- Claim C10: the initial wireframe state is true exactly for the stored
string "true"; when the key is absent or holds any other string the viewer
starts in solid mode, whereas the auto-rotate flag defaults to enabled when
its key is absent. -/
theorem claim_C10 (stored : Option String) :
    initWireframe (some "true") = true
      ∧ initWireframe none = false
      ∧ (stored ≠ some "true" → initWireframe stored = false)
      ∧ initAutoRotate none = true := by
  refine ⟨rfl, rfl, ?_, rfl⟩
  intro h
  show (stored == some "true") = false
  exact beq_eq_false_iff_ne.mpr h

/-- An or-fallback with a nonzero default never yields zero. -/
lemma orDefault_ne_zero (v d : ℚ) (hd : d ≠ 0) : orDefault v d ≠ 0 := by
  unfold orDefault
  split
  · exact hd
  · assumption

/-- IEEE division yields a finite value exactly when the divisor is
nonzero. -/
lemma fdiv_isFinite_iff (w h : ℚ) : (fdiv w h).isFinite = true ↔ h ≠ 0 := by
  rcases eq_or_ne h 0 with hh | hh
  · subst hh
    by_cases hw : w = 0 <;> simp [fdiv, hw, FloatVal.isFinite]
  · simp [fdiv, hh, FloatVal.isFinite]

/-- Claim C2 counterexample: at scene construction a 0 x 0 viewport is
passed to the camera with no fallback, producing a NaN aspect ratio, so the
fallback substitution does not happen both at construction and at resize. -/
theorem claim_C2_counterexample :
    constructAspect 0 0 = FloatVal.nan
      ∧ (constructAspect 0 0).isFinite = false := by
  constructor <;> decide

/-- Claim C2 (amended): handleResize substitutes the 800 x 600 fallback for
a zero width or height, so the aspect ratio computed at resize is always
finite; scene construction applies no fallback, so its aspect ratio is
finite exactly when the viewport height is nonzero. -/
theorem claim_C2 (w h : ℚ) :
    (resizeAspect w h).isFinite = true
      ∧ ((constructAspect w h).isFinite = true ↔ h ≠ 0) := by
  refine ⟨?_, fdiv_isFinite_iff w h⟩
  exact (fdiv_isFinite_iff (orDefault w 800) (orDefault h 600)).mpr
    (orDefault_ne_zero h 600 (by norm_num))

/-- Claim C3 counterexample: a stored rotation whose x component is the
number Infinity (reachable as the JSON.parse of a string containing the
overflowing literal 1e999) passes all three typeof checks and is applied to
the mesh, not replaced by the default orientation. -/
theorem claim_C3_counterexample :
    restoreRotationStep
        (some (.obj (.num .inf) (.num (.fin 0)) (.num (.fin 0))))
        ⟨.fin 0, .fin 0, .fin 0⟩
      ≠ ⟨.fin 0, .fin 0, .fin 0⟩ := by
  decide

/-- Claim C3 (amended): the restore step never throws past the adapter
boundary (it is a total function); an absent key, an unparsable string, a
falsy parse result, and a component that is not of number type all leave the
mesh at its default rotation; but the guard checks typeof only, so a
component that is a non-finite number (an infinity from an overflowing JSON
literal, or NaN) is applied to the mesh rather than defaulted. -/
theorem claim_C3 (d : Rot) :
    restoreRotationStep none d = d
      ∧ restoreRotationStep (some .error) d = d
      ∧ restoreRotationStep (some .falsy) d = d
      ∧ (∀ x y z : JsVal, (x = .nonNum ∨ y = .nonNum ∨ z = .nonNum) →
          restoreRotationStep (some (.obj x y z)) d = d)
      ∧ (∀ a b c : JsNum,
          restoreRotationStep (some (.obj (.num a) (.num b) (.num c))) d
            = ⟨a, b, c⟩) := by
  refine ⟨rfl, rfl, rfl, ?_, fun a b c => rfl⟩
  intro x y z h
  rcases x with a | _ <;> rcases y with b | _ <;> rcases z with c | _ <;>
    simp_all [restoreRotationStep]

/-- With auto-rotate enabled, n ticks advance the mesh rotation by exactly
n times the per-frame deltas (0.01, 0.015, 0). -/
lemma ticks_true_rotation (n : ℕ) (s : LoopState) :
    (ticks true n s).rotation
      = ⟨s.rotation.x + (n : ℚ) * (1/100), s.rotation.y + (n : ℚ) * (3/200),
          s.rotation.z⟩ := by
  induction n generalizing s with
  | zero => simp [ticks]
  | succ n ih =>
    rw [ticks, ih]
    simp only [tick, if_true, QRot.mk.injEq]
    refine ⟨?_, ?_, trivial⟩ <;> push_cast <;> ring

/-- With auto-rotate enabled, after at least one tick the store holds
exactly the current mesh rotation. -/
lemma ticks_true_storedRot (n : ℕ) (s : LoopState) (h : 1 ≤ n) :
    (ticks true n s).storedRot = some (ticks true n s).rotation := by
  induction n generalizing s with
  | zero => exact absurd h (by omega)
  | succ n ih =>
    rcases Nat.eq_zero_or_pos n with hn | hn
    · subst hn
      simp [ticks, tick]
    · rw [ticks]
      exact ih (tick true s) hn

/-- Claim C5: with auto-rotate enabled throughout, after N ticks (N at least
one) the rotation persisted to the store equals the initial rotation
advanced by exactly N times (0.01, 0.015, 0) — exact equality of the
idealized real values, hence in particular equality mod 2 pi with quotient
zero, since the code never wraps Euler angles — and after each tick the
persisted value equals the mesh's rotation at that tick. -/
theorem claim_C5 (n : ℕ) (s : LoopState) (h : 1 ≤ n) :
    (ticks true n s).storedRot
        = some ⟨s.rotation.x + (n : ℚ) * (1/100),
            s.rotation.y + (n : ℚ) * (3/200), s.rotation.z⟩
      ∧ ∀ k, 1 ≤ k → k ≤ n →
          (ticks true k s).storedRot = some (ticks true k s).rotation := by
  refine ⟨?_, fun k hk _ => ticks_true_storedRot k s hk⟩
  rw [ticks_true_storedRot n s h, ticks_true_rotation]

/-- Witness for claim C5 at N = 3 from the zero rotation. -/
theorem claim_C5_witness :
    (ticks true 3 ⟨⟨0, 0, 0⟩, none, 0⟩).storedRot
      = some ⟨(0 : ℚ) + ((3 : ℕ) : ℚ) * (1/100),
          (0 : ℚ) + ((3 : ℕ) : ℚ) * (3/200), (0 : ℚ)⟩ :=
  (claim_C5 3 ⟨⟨0, 0, 0⟩, none, 0⟩ (by norm_num)).1

/-- Claim C6: with auto-rotate disabled, N ticks leave the mesh rotation and
the persisted rotation unchanged, while the renderer still renders on every
one of the N ticks. -/
theorem claim_C6 (n : ℕ) (s : LoopState) :
    (ticks false n s).rotation = s.rotation
      ∧ (ticks false n s).storedRot = s.storedRot
      ∧ (ticks false n s).renders = s.renders + n := by
  induction n generalizing s with
  | zero => exact ⟨rfl, rfl, rfl⟩
  | succ n ih =>
    rw [ticks]
    rcases ih (tick false s) with ⟨h1, h2, h3⟩
    refine ⟨?_, ?_, ?_⟩
    · rw [h1]; rfl
    · rw [h2]; rfl
    · rw [h3]
      show s.renders + 1 + n = s.renders + (n + 1)
      omega

/-- Claim C7: a rotation persisted by a tick, serialized to JSON and parsed
back at the next construction, is restored exactly: the new mesh's
orientation equals the persisted triple before any tick runs. -/
theorem claim_C7 (s : LoopState) (d : Rot) :
    ∃ r : QRot,
      (tick true s).storedRot = some r
        ∧ restoreRotationStep (some (encodeRot r)) d
            = ⟨.fin r.x, .fin r.y, .fin r.z⟩ :=
  ⟨_, rfl, rfl⟩

/-- Claim C8: the wireframe effect sets the active mesh material's wireframe
flag in place and changes nothing else of the scene: same construction count
(no scene reconstruction), same mesh and geometry (nothing rebuilt or
released), same rotation, material color, lights, camera aspect and
renderer. -/
theorem claim_C8 (w : Bool) (s : SceneState) :
    (applyWireframe w s).material.wireframe = w
      ∧ (applyWireframe w s).constructions = s.constructions
      ∧ (applyWireframe w s).meshId = s.meshId
      ∧ (applyWireframe w s).geometryKey = s.geometryKey
      ∧ (applyWireframe w s).rotation = s.rotation
      ∧ (applyWireframe w s).material.color = s.material.color
      ∧ (applyWireframe w s).hasAmbientLight = s.hasAmbientLight
      ∧ (applyWireframe w s).hasDirectionalLight = s.hasDirectionalLight
      ∧ (applyWireframe w s).cameraAspect = s.cameraAspect
      ∧ (applyWireframe w s).rendererId = s.rendererId :=
  ⟨rfl, rfl, rfl, rfl, rfl, rfl, rfl, rfl, rfl, rfl⟩

/-- Claim C9: in the effect cleanup, the cancelAnimationFrame call occurs
strictly before every resource-release event — the renderer, geometry and
material disposes and the scene clear — whichever way the animation-frame
guard goes, so no queued tick can run against freed resources. -/
theorem claim_C9 (b : Bool) (i j : Fin (teardownEvents b).length)
    (hi : (teardownEvents b).get i = TeardownEvent.cancelFrame)
    (hj : isRelease ((teardownEvents b).get j) = true) :
    (i : ℕ) < (j : ℕ) := by
  revert hi hj
  revert i j
  cases b <;> decide

/-- Witness for claim C9: with the frame registered, the cancel at
position 1 precedes the renderer dispose at position 2. -/
theorem claim_C9_witness :
    ((teardownEvents true).get ⟨1, by decide⟩ = TeardownEvent.cancelFrame)
      ∧ isRelease ((teardownEvents true).get ⟨2, by decide⟩) = true
      ∧ (1 : ℕ) < 2 :=
  ⟨rfl, rfl, claim_C9 true ⟨1, by decide⟩ ⟨2, by decide⟩ rfl rfl⟩

/-- Every lifeRun state has rendererRef pointing at the renderer of the most
recent construction. -/
lemma lifeRun_rendererRef (n : ℕ) : (lifeRun n).rendererRef = some n := by
  cases n <;> rfl

/-- One shape change prepends to the event list: the re-dispose of the
previous renderer by the new construction, after the previous cleanup's
three disposes. -/
lemma lifeRun_events_succ (n : ℕ) :
    (lifeRun (n + 1)).events
      = (n, ResKind.renderer) :: (n, ResKind.renderer) :: (n, ResKind.geometry)
          :: (n, ResKind.material) :: (lifeRun n).events := by
  show (construct (n + 1) (cleanup n (lifeRun n))).events = _
  simp [construct, cleanup, lifeRun_rendererRef n]

/-- Dispose counts before the final unmount: every construction before the
latest has its renderer disposed twice and its geometry and material once;
the latest construction's resources have no disposes yet. -/
lemma countEvents_lifeRun (n i : ℕ) (k : ResKind) :
    countEvents i k (lifeRun n).events
      = if i < n then (if k = ResKind.renderer then 2 else 1) else 0 := by
  induction n with
  | zero => simp [lifeRun, construct, countEvents]
  | succ n ih =>
    rw [lifeRun_events_succ]
    simp only [countEvents]
    rcases lt_trichotomy i n with h | h | h
    · have hne : n ≠ i := by omega
      have h1 : i < n + 1 := by omega
      simp [ih, Prod.ext_iff, hne, h, h1]
    · subst h
      cases k <;>
        simp [ih, Prod.ext_iff, Nat.lt_irrefl, Nat.lt_succ_self]
    · have hne : n ≠ i := by omega
      have h1 : ¬ i < n + 1 := by omega
      have h2 : ¬ i < n := by omega
      simp [ih, Prod.ext_iff, hne, h1, h2]

/-- Dispose counts over a full session of n shape changes plus unmount. -/
lemma disposeCount_finalState (n i : ℕ) (k : ResKind) (h : i ≤ n) :
    disposeCount (finalState n) i k
      = if k = ResKind.renderer then (if i < n then 2 else 1) else 1 := by
  unfold disposeCount finalState cleanup
  simp only [countEvents]
  rcases eq_or_lt_of_le h with he | hl
  · subst he
    cases k <;> simp [countEvents_lifeRun, Prod.ext_iff, Nat.lt_irrefl]
  · have hne : n ≠ i := by omega
    simp [countEvents_lifeRun, Prod.ext_iff, hne, hl]

/-- Claim C1 counterexample: in a session of one shape change, the first
construction's renderer is disposed twice — once by the first cleanup and
once more by the second construction's re-dispose through the stale
rendererRef — refuting exactly-once disposal. -/
theorem claim_C1_counterexample :
    disposeCount (finalState 1) 0 ResKind.renderer = 2 := by
  decide

/-- Claim C1 (amended): over every session of n shape changes and a final
unmount, each construction's geometry and material are disposed exactly
once, and the final construction's renderer is disposed exactly once; but
every earlier construction's renderer is disposed exactly twice — once by
the effect cleanup and once more by the defensive re-dispose at the start of
the next construction, which still reaches it through rendererRef. No
dispose is ever skipped. -/
theorem claim_C1 (n i : ℕ) (h : i ≤ n) :
    disposeCount (finalState n) i ResKind.geometry = 1
      ∧ disposeCount (finalState n) i ResKind.material = 1
      ∧ disposeCount (finalState n) i ResKind.renderer
          = (if i < n then 2 else 1) := by
  refine ⟨?_, ?_, ?_⟩ <;> rw [disposeCount_finalState n i _ h] <;> simp

/-- Witness for claim C1: a session of two shape changes, looking at the
first construction's resources. -/
theorem claim_C1_witness :
    disposeCount (finalState 2) 0 ResKind.geometry = 1
      ∧ disposeCount (finalState 2) 0 ResKind.material = 1
      ∧ disposeCount (finalState 2) 0 ResKind.renderer
          = (if 0 < 2 then 2 else 1) :=
  claim_C1 2 0 (by decide)

end GeometryExplorer
